import Mathlib

/-!
Verification of `cpp_performance_examples.cpp`.

Shallow embedding of the single source file of this repository.  The program
is a linear sequence of micro-benchmarks; its one reusable component is the
timing harness `timeFunction` (source lines 21-28):

```
template<typename Func>
void timeFunction(const string& name, Func func) {
    auto start = high_resolution_clock::now();
    func();
    auto end = high_resolution_clock::now();
    auto duration = duration_cast<microseconds>(end - start);
    cout << name << ": " << duration.count() / 1000.0 << " ms" << endl;
}
```

Modelling choices, each tied to the source:

* Observable behaviour is a trace of events: clock reads and writes to
  standard output.  A `World` carries the clock environment (a stream of
  timestamps, indexed by how many `now()` calls have happened), the trace so
  far, and the caller-visible state a closure may mutate.
* `high_resolution_clock::now()` returns nanosecond-resolution timestamps
  (with the toolchain documented in the source header, g++/libstdc++, its
  period is 1 ns).  The C++ standard does NOT guarantee this clock is steady:
  with g++ it is an alias of the adjustable `system_clock`.  The clock is
  therefore modelled as an unconstrained stream `clockFn : Nat → Int` of
  nanosecond timestamps; monotonicity, where needed, is a hypothesis.
* `duration_cast<microseconds>` truncates toward zero: `Int.tdiv _ 1000`.
* A unit of work (`Func func`) is a function from caller state to either a
  normal result (C++ return) or an error (C++ exception), together with the
  list of events the work itself performs.  C++ exceptions propagate out of
  `timeFunction`, which has no try/catch; output already written stays
  written, which the error case of the state-passing monad preserves.
* `cout << name << ": " << d << " ms" << endl` emits one output chunk.
  The formatting of the double `duration.count() / 1000.0` under the default
  `ostream` precision (6 significant digits) is modelled by `fmtMs`, which is
  exact for |microseconds| < 10^6: in that range `count/1000` has at most 6
  significant digits, so the double rounds back to it, printed in fixed
  form with trailing zeros stripped (`cout << 0.0` prints `0`,
  `cout << 0.5` prints `0.5`, `cout << 0.001` prints `0.001`).
-/

/-- An observable event of the program: a timestamp capture from
`high_resolution_clock::now()`, or a chunk written to standard output. -/
inductive Event where
  | clockRead : Int → Event
  | printed : String → Event
deriving DecidableEq, Repr

/-- Program state threaded through the embedding: the clock environment
(`clockFn i` is the timestamp returned by the `i`-th `now()` call), how many
`now()` calls have happened, the output/clock trace so far, and the
caller-visible state `user` that a closure may mutate. -/
structure World (σ : Type) where
  clockFn : Nat → Int
  clockIdx : Nat
  trace : List Event
  user : σ

/-- A timed unit of work (`Func func` in the source): from the caller state it
either returns normally (`Except.ok`) with the updated state, or throws
(`Except.error`); `List Event` is the sequence of observable events the work
itself performs while running. -/
def Work (σ ε : Type) : Type := σ → Except ε σ × List Event

/-- A program step: state passing plus C++-exception-style early exit.
On an error the `World` reached so far is kept (output already flushed to
`cout` stays written when an exception propagates). -/
def M (σ ε α : Type) : Type := World σ → Except ε α × World σ

/-- Sequencing of two program steps; an error in the first skips the
second, as an uncaught C++ exception would. -/
def bindM {σ ε α β : Type} (m : M σ ε α) (f : α → M σ ε β) : M σ ε β :=
  fun w =>
    match m w with
    | (Except.error e, w1) => (Except.error e, w1)
    | (Except.ok a, w1) => f a w1

/-- Sequencing when the first result is discarded (a C++ statement). -/
def seqM {σ ε β : Type} (m : M σ ε Unit) (k : M σ ε β) : M σ ε β :=
  bindM m (fun _ => k)

/-- A `cout << ... ;` statement: appends one chunk to the output trace. -/
def printOut {σ ε : Type} (s : String) : M σ ε Unit :=
  fun w => (Except.ok (), { w with trace := w.trace ++ [Event.printed s] })

/-- `duration_cast<microseconds>(end - start)` on a nanosecond count:
conversion to a coarser duration unit truncates toward zero
([time.duration.cast]). -/
def durationCastUs (ns : Int) : Int := Int.tdiv ns 1000

/-- The digit character for `d < 10`, as the stream insertion operator
renders decimal digits. -/
def digitChar (d : Nat) : Char := Char.ofNat (48 + d)

/-- Digit accumulation, structurally recursive on a fuel bound so that the
kernel can evaluate it; `fuel = n + 1` always suffices since `n / 10 < n`
for `n ≥ 10`. -/
def natReprCharsGo : Nat → Nat → List Char → List Char
  | 0, _, acc => acc
  | fuel + 1, n, acc =>
      if n < 10 then digitChar n :: acc
      else natReprCharsGo fuel (n / 10) (digitChar (n % 10) :: acc)

/-- Decimal digit list of a natural number, most significant first, as the
stream insertion operator renders a non-negative integer part. -/
def natReprChars (n : Nat) : List Char := natReprCharsGo (n + 1) n []

/-- Decimal rendering of a natural number. -/
def natRepr (n : Nat) : String := String.mk (natReprChars n)

/-- The fractional part `0 ≤ fr < 1000` zero-padded to three digits, i.e. the
three decimals of `fr / 1000`. -/
def padThree (fr : Nat) : List Char :=
  if fr < 10 then '0' :: '0' :: natReprChars fr
  else if fr < 100 then '0' :: natReprChars fr
  else natReprChars fr

/-- Default `ostream` formatting strips trailing zeros of the fraction. -/
def stripZeros (l : List Char) : List Char :=
  (l.reverse.dropWhile (fun c => c == '0')).reverse

/-- Model of `cout << (us / 1000.0)` under default stream settings
(6 significant digits, fixed form, trailing zeros stripped), exact for
`|us| < 10^6` where `us / 1000` has at most 6 significant digits and the
nearest double rounds back to it; e.g. `fmtMs 0 = "0"`, `fmtMs 500 = "0.5"`,
`fmtMs 123456 = "123.456"`. -/
def fmtMs (us : Int) : String :=
  let sign := if us < 0 then "-" else ""
  let a := us.natAbs
  let ip := a / 1000
  let fr := a % 1000
  if fr = 0 then sign ++ natRepr ip
  else sign ++ natRepr ip ++ "." ++ String.mk (stripZeros (padThree fr))

/-- The full chunk `timeFunction` writes for label `name` and a computed
microsecond count `us`: `cout << name << ": " << us/1000.0 << " ms" << endl`. -/
def outputLine (name : String) (us : Int) : String :=
  name ++ ": " ++ fmtMs us ++ " ms\n"

/-- Source lines 21-28, statement by statement:
`start = now()` — read and consume one clock timestamp;
`func()` — run the work on the caller state (an exception propagates, and
no further statement of the harness runs);
`end = now()` — read and consume the next timestamp;
`duration = duration_cast<microseconds>(end - start)`;
`cout << name << ": " << duration.count()/1000.0 << " ms" << endl`. -/
def timeFunction {σ ε : Type} (name : String) (func : Work σ ε) : M σ ε Unit :=
  fun w =>
    let start := w.clockFn w.clockIdx
    let w1 : World σ :=
      { w with clockIdx := w.clockIdx + 1, trace := w.trace ++ [Event.clockRead start] }
    match func w1.user with
    | (Except.error e, evs) =>
        (Except.error e, { w1 with trace := w1.trace ++ evs })
    | (Except.ok s, evs) =>
        let w2 : World σ := { w1 with user := s, trace := w1.trace ++ evs }
        let endT := w2.clockFn w2.clockIdx
        let w3 : World σ :=
          { w2 with clockIdx := w2.clockIdx + 1, trace := w2.trace ++ [Event.clockRead endT] }
        let duration := durationCastUs (endT - start)
        (Except.ok (),
          { w3 with trace := w3.trace ++ [Event.printed (outputLine name duration)] })

/-- The chunks written to standard output, in order, extracted from a trace. -/
def printedOutput (tr : List Event) : List String :=
  tr.filterMap fun e =>
    match e with
    | Event.printed s => some s
    | Event.clockRead _ => none

/-- Number of line breaks in a string. -/
def newlineCount (s : String) : Nat := s.data.count '\n'

/-- A work that returns normally, transforming the caller state by `g` and
performing events `evs`; the example closures are of this shape. -/
def pureWork {σ ε : Type} (g : σ → σ) (evs : List Event) : Work σ ε :=
  fun s => (Except.ok (g s), evs)

/-- A work that performs events `evs` and then throws `e`. -/
def throwWork {σ ε : Type} (e : ε) (evs : List Event) : Work σ ε :=
  fun s =>
    let _ := s
    (Except.error e, evs)

/-- The empty unit of work `[](){}`. -/
def noopWork {σ ε : Type} : Work σ ε := fun s => (Except.ok s, [])

/-- A work that increments a captured counter `n` times
(`for (...; n times) counter++;`) and returns normally. -/
def counterWork {ε : Type} (n : Nat) : Work Nat ε :=
  fun counter => (Except.ok (Nat.iterate (fun c => c + 1) n counter), [])

/-! ## The example call sites (source lines 30-248)

The seven example functions build local data and pass closures to
`timeFunction`.  C++ `int` arithmetic is modelled on `Int` (signed overflow
is undefined behaviour in C++; both variants of each example perform the
identical operation sequence, so the comparison claims are insensitive to
the overflow model).  Each closure only reads captured data and writes local
variables (the source marks discarded results `volatile` so the compiler
keeps the computation); observably it returns normally with the caller state
unchanged and performs no output, which the embedding renders as a discarded
`let` of the computed value. -/

/-- Source lines 34-41: `int sumByValue(vector<int> vec)` — the parameter is
a copy of the argument; the loop `for (int val : vec) sum += val`. -/
def sumByValueGo : Int → List Int → Int
  | sum, [] => sum
  | sum, val :: rest => sumByValueGo (sum + val) rest

/-- Source lines 34-41: the copied parameter, then the summation loop. -/
def sumByValue (vec : List Int) : Int :=
  let copied := vec
  sumByValueGo 0 copied

/-- Source lines 43-50: `int sumByReference(const vector<int>& vec)` — the
same loop `for (int val : vec) sum += val` over the un-copied vector. -/
def sumByReferenceGo : Int → List Int → Int
  | sum, [] => sum
  | sum, val :: rest => sumByReferenceGo (sum + val) rest

/-- Source lines 43-50: the summation loop over the referenced vector. -/
def sumByReference (vec : List Int) : Int := sumByReferenceGo 0 vec

/-- Source lines 53-56 and 188-191: `vector<int> data(1000000)` with
`data[i] = i`. -/
def data1M : List Int := (List.range 1000000).map (fun i => (i : Int))

/-- Source lines 61-63: `[&]() { volatile int result = sumByValue(data); }`. -/
def passByValueClosure {ε : Type} : Work Unit ε :=
  fun u =>
    let _result := sumByValue data1M
    (Except.ok u, [])

/-- Source lines 65-67: `[&]() { volatile int result = sumByReference(data); }`. -/
def passByReferenceClosure {ε : Type} : Work Unit ε :=
  fun u =>
    let _result := sumByReference data1M
    (Except.ok u, [])

/-- `string(70, '-')`, the separator line under each example header. -/
def dashLine : String := String.mk (List.replicate 70 '-')

/-- `string(70, '=')`, the banner line of `main`. -/
def eqLine : String := String.mk (List.replicate 70 '=')

/-- Source lines 52-68: `testPassByReference` — builds `data`, prints the
header and separator, then times the two closures in order. -/
def testPassByReference {ε : Type} : M Unit ε Unit :=
  seqM (printOut "\n1. Pass by Value vs Reference (1M elements)\n")
  (seqM (printOut (dashLine ++ "\n"))
  (seqM (timeFunction "Pass by Value (inefficient)" passByValueClosure)
        (timeFunction "Pass by Reference (efficient)" passByReferenceClosure)))

/-- Source lines 78-91: the concatenation loop
`for (i < 10000) result += to_string(i) + ","` shared by both closures of
example 2; `reserve(60000)` changes capacity only, not the string value. -/
def concatResult : String :=
  (List.range 10000).foldl (fun result i => result ++ natRepr i ++ ",") ""

/-- Source lines 78-83: the `+=` closure building `result` locally. -/
def concatPlainClosure {ε : Type} : Work Unit ε :=
  fun u =>
    let _result := concatResult
    (Except.ok u, [])

/-- Source lines 85-91: the `reserve` + `+=` closure; same string value. -/
def concatReserveClosure {ε : Type} : Work Unit ε :=
  fun u =>
    let _result := concatResult
    (Except.ok u, [])

/-- Source lines 74-92: `testStringConcatenation`. -/
def testStringConcatenation {ε : Type} : M Unit ε Unit :=
  seqM (printOut "\n2. String Concatenation (10,000 elements)\n")
  (seqM (printOut (dashLine ++ "\n"))
  (seqM (timeFunction "Using += operator (inefficient)" concatPlainClosure)
        (timeFunction "Using reserve + += (efficient)" concatReserveClosure)))

/-- Source lines 102-115: the loop `for (i < 100000) vec.push_back(i)`
shared by both closures of example 3; `reserve(100000)` changes capacity
only, not the element sequence. -/
def pushBackVec : List Int := (List.range 100000).map (fun i => (i : Int))

/-- Source lines 102-107: `push_back` without `reserve`. -/
def vectorPlainClosure {ε : Type} : Work Unit ε :=
  fun u =>
    let _vec := pushBackVec
    (Except.ok u, [])

/-- Source lines 109-115: `reserve(100000)` then the same `push_back` loop. -/
def vectorReserveClosure {ε : Type} : Work Unit ε :=
  fun u =>
    let _vec := pushBackVec
    (Except.ok u, [])

/-- Source lines 98-116: `testVectorReserve`. -/
def testVectorReserve {ε : Type} : M Unit ε Unit :=
  seqM (printOut "\n3. Vector Reserve (100,000 elements)\n")
  (seqM (printOut (dashLine ++ "\n"))
  (seqM (timeFunction "Without reserve (inefficient)" vectorPlainClosure)
        (timeFunction "With reserve (efficient)" vectorReserveClosure)))

/-- Source lines 122-125: `struct Point { int x, y, z; }` with its
three-argument constructor. -/
structure Point where
  x : Int
  y : Int
  z : Int
deriving DecidableEq, Repr

/-- Source lines 131-145: the element sequence `Point(i, i*2, i*3)` for
`i < 100000`, identical for `push_back(Point(...))` (which copies a
temporary) and `emplace_back(...)` (which constructs in place). -/
def builtPoints : List Point := (List.range 100000).map (fun i => ⟨i, i * 2, i * 3⟩)

/-- Source lines 131-137: the `push_back` closure. -/
def pushBackClosure {ε : Type} : Work Unit ε :=
  fun u =>
    let _points := builtPoints
    (Except.ok u, [])

/-- Source lines 139-145: the `emplace_back` closure; same element values. -/
def emplaceBackClosure {ε : Type} : Work Unit ε :=
  fun u =>
    let _points := builtPoints
    (Except.ok u, [])

/-- Source lines 127-146: `testEmplaceBack`. -/
def testEmplaceBack {ε : Type} : M Unit ε Unit :=
  seqM (printOut "\n4. emplace_back vs push_back (100,000 elements)\n")
  (seqM (printOut (dashLine ++ "\n"))
  (seqM (timeFunction "Using push_back (inefficient)" pushBackClosure)
        (timeFunction "Using emplace_back (efficient)" emplaceBackClosure)))

/-- Source lines 159-162: both sets receive the insertions `0 .. 9999`. -/
def setElems : List Nat := List.range 10000

/-- Source lines 164-180: the lookup loop — for `i < 100000`, probe
`i % 10000` and count the hits; identical for `set` and `unordered_set`
since both contain the same keys. -/
def lookupHitCount : Nat :=
  ((List.range 100000).filter (fun i => setElems.contains (i % 10000))).length

/-- Source lines 164-171: the `std::set` lookup closure. -/
def orderedLookupClosure {ε : Type} : Work Unit ε :=
  fun u =>
    let _count := lookupHitCount
    (Except.ok u, [])

/-- Source lines 173-180: the `std::unordered_set` lookup closure. -/
def unorderedLookupClosure {ε : Type} : Work Unit ε :=
  fun u =>
    let _count := lookupHitCount
    (Except.ok u, [])

/-- Source lines 152-181: `testSetLookup` — builds both sets, then times the
two lookup loops. -/
def testSetLookup {ε : Type} : M Unit ε Unit :=
  seqM (printOut "\n5. Set vs Unordered Set (100,000 lookups)\n")
  (seqM (printOut (dashLine ++ "\n"))
  (seqM (timeFunction "std::set lookup - O(log n)" orderedLookupClosure)
        (timeFunction "std::unordered_set lookup - O(1)" unorderedLookupClosure)))

/-- Source lines 196-216: the summation `sum += data[i]` over all one
million elements (`long long` accumulator, modelled on `Int`), identical for
the size-per-iteration, cached-size, and range-for variants. -/
def sumLongLong (vec : List Int) : Int := vec.foldl (fun sum val => sum + val) 0

/-- Source lines 196-201: `size()` called each iteration. -/
def sizePerIterClosure {ε : Type} : Work Unit ε :=
  fun u =>
    let _sum := sumLongLong data1M
    (Except.ok u, [])

/-- Source lines 203-209: the cached-size loop. -/
def cachedSizeClosure {ε : Type} : Work Unit ε :=
  fun u =>
    let _sum := sumLongLong data1M
    (Except.ok u, [])

/-- Source lines 211-216: the range-based for loop. -/
def rangeForClosure {ε : Type} : Work Unit ε :=
  fun u =>
    let _sum := sumLongLong data1M
    (Except.ok u, [])

/-- Source lines 187-217: `testCacheSize` — builds `data`, prints the
header, then times the three variants. -/
def testCacheSize {ε : Type} : M Unit ε Unit :=
  seqM (printOut "\n6. Caching Vector Size (1M iterations)\n")
  (seqM (printOut (dashLine ++ "\n"))
  (seqM (timeFunction "Calling size() in loop (inefficient)" sizePerIterClosure)
  (seqM (timeFunction "Caching size (efficient)" cachedSizeClosure)
        (timeFunction "Range-based for loop (most efficient)" rangeForClosure))))

/-- Source lines 223-229: `createLargeVector` — `vector<int> vec(1000000)`
with `vec[i] = i`, returned by value. -/
def createLargeVector : List Int := (List.range 1000000).map (fun i => (i : Int))

/-- Source lines 235-238: build `original = vector<int>(1000000, 42)` and
copy it. -/
def copyCtorClosure {ε : Type} : Work Unit ε :=
  fun u =>
    let original := List.replicate 1000000 (42 : Int)
    let _copy := original
    (Except.ok u, [])

/-- Source lines 240-243: build `original` and move from it (the moved-to
vector holds the same elements). -/
def moveCtorClosure {ε : Type} : Work Unit ε :=
  fun u =>
    let original := List.replicate 1000000 (42 : Int)
    let _moved := original
    (Except.ok u, [])

/-- Source lines 245-247: `vector<int> result = createLargeVector();`. -/
def rvoClosure {ε : Type} : Work Unit ε :=
  fun u =>
    let _result := createLargeVector
    (Except.ok u, [])

/-- Source lines 231-248: `testMoveSemantics`. -/
def testMoveSemantics {ε : Type} : M Unit ε Unit :=
  seqM (printOut "\n7. Copy vs Move Semantics\n")
  (seqM (printOut (dashLine ++ "\n"))
  (seqM (timeFunction "Copy constructor (if used)" copyCtorClosure)
  (seqM (timeFunction "Move constructor (efficient)" moveCtorClosure)
        (timeFunction "Return value optimization" rvoClosure))))

/-- A clock environment that steps backward by one millisecond between the
first and the second capture, as an adjustable wall clock may: the C++
standard leaves `high_resolution_clock` unspecified between `steady_clock`
and the adjustable `system_clock` ([time.clock.hires]), and with the
toolchain documented in the source header (g++/libstdc++) it is an alias of
`system_clock`. -/
def backwardClock : Nat → Int := fun i => if i = 0 then 1000000 else 0

/-- Initial world over the backward-stepping clock. -/
def backwardClockWorld : World Unit :=
  { clockFn := backwardClock, clockIdx := 0, trace := [], user := () }

/-- Initial world over a well-behaved clock that advances 1000 ns per
capture. -/
def tickWorld : World Unit :=
  { clockFn := fun i => 1000 * i, clockIdx := 0, trace := [], user := () }

/-- Initial world over a clock that does not advance at all: the work takes
negligible time and the measured elapsed duration is 0 ns. -/
def stalledClockWorld : World Unit :=
  { clockFn := fun _ => 5000000, clockIdx := 0, trace := [], user := () }

/-- Initial world over the constant-zero clock. -/
def zeroClockWorld : World Unit :=
  { clockFn := fun _ => 0, clockIdx := 0, trace := [], user := () }

/-- Initial world over a clock adjusted backward by 1500 ns between the two
captures: the measured duration is -1500 ns. -/
def smallStepbackWorld : World Unit :=
  { clockFn := fun i => if i = 0 then 1500 else 0, clockIdx := 0, trace := [], user := () }

/-- Source lines 254-272: `main` — opening banner, the seven example
functions in source order, closing banner, `return 0`.  (Named `mainFn`
because Lean reserves `main` for an executable entry point of a fixed
type.) -/
def mainFn {ε : Type} : M Unit ε Int :=
  seqM (printOut (eqLine ++ "\n"))
  (seqM (printOut "C++ Performance Optimization Examples\n")
  (seqM (printOut (eqLine ++ "\n"))
  (seqM testPassByReference
  (seqM testStringConcatenation
  (seqM testVectorReserve
  (seqM testEmplaceBack
  (seqM testSetLookup
  (seqM testCacheSize
  (seqM testMoveSemantics
  (seqM (printOut ("\n" ++ eqLine ++ "\n"))
  (seqM (printOut "Benchmark Complete!\n")
  (seqM (printOut (eqLine ++ "\n"))
        (fun w => (Except.ok 0, w))))))))))))))

/-! ## Verified properties

Each claim-level theorem carries the claim identifier in its doc comment.
Helper lemmas characterise one `timeFunction` call and the character
content of the formatted output. -/

/-- One harness call on a normally-returning work, fully characterised:
one clock read, the events of the work, a second clock read, one output
chunk; the clock advances by two captures and the caller state is
transformed exactly once by the work. -/
theorem timeFunction_pureWork {σ ε : Type} (name : String) (g : σ → σ) (evs : List Event)
    (w : World σ) :
    timeFunction (ε := ε) name (pureWork g evs) w =
      (Except.ok (),
        { clockFn := w.clockFn
          clockIdx := w.clockIdx + 2
          trace := w.trace ++ [Event.clockRead (w.clockFn w.clockIdx)] ++ evs ++
            [Event.clockRead (w.clockFn (w.clockIdx + 1)),
             Event.printed (outputLine name
               (durationCastUs (w.clockFn (w.clockIdx + 1) - w.clockFn w.clockIdx)))]
          user := g w.user }) := by
  simp [timeFunction, pureWork, List.append_assoc]

/-- One harness call on a throwing work, fully characterised: the error is
returned to the caller, only the first clock read and the events of the
work happened, and in particular no output chunk was appended. -/
theorem timeFunction_throwWork {σ ε : Type} (name : String) (e : ε) (evs : List Event)
    (w : World σ) :
    timeFunction name (throwWork e evs) w =
      (Except.error e,
        { clockFn := w.clockFn
          clockIdx := w.clockIdx + 1
          trace := w.trace ++ [Event.clockRead (w.clockFn w.clockIdx)] ++ evs
          user := w.user }) := by
  simp [timeFunction, throwWork, List.append_assoc]

/-- Output extraction distributes over trace concatenation. -/
theorem printedOutput_append (a b : List Event) :
    printedOutput (a ++ b) = printedOutput a ++ printedOutput b := by
  simp [printedOutput]

/-- Iterating the increment `n` times adds `n`. -/
theorem counter_iterate_add (n c : Nat) : Nat.iterate (fun x => x + 1) n c = c + n := by
  induction n generalizing c with
  | zero => simp
  | succ k ih => rw [Function.iterate_succ_apply]; rw [ih]; omega

/-- Claim C1: for every label and every initial state, `timeFunction`
invokes the work exactly once, synchronously, to completion before it
returns — a work that increments a captured counter `n` times leaves the
counter incremented by exactly `n` when `timeFunction` returns. -/
theorem timeFunction_runs_work_exactly_once {ε : Type} (name : String) (n : Nat)
    (w : World Nat) :
    ((timeFunction (ε := ε) name (counterWork n) w).2).user = w.user + n := by
  have h : counterWork (ε := ε) n = pureWork (fun c => Nat.iterate (fun x => x + 1) n c) [] := rfl
  rw [h, timeFunction_pureWork]
  exact counter_iterate_add n w.user

/-- Claim C2, counterexample: the harness reads
`high_resolution_clock::now()`, which the C++ standard does not require to
be steady (with the g++ toolchain named in the source header it aliases the
adjustable `system_clock`), so the clock is an environment input that may
step backward between the two captures.  On the trace where the wall clock
is adjusted from 1000000 ns back to 0 ns during the noop work, the harness
reports a negative elapsed duration: it computes -1000 µs and prints
`noop: -1 ms`.  This refutes both parts of the claim for the code as
written: the clock source is not immune to wall-clock adjustments, and the
reported elapsed duration can be negative. -/
theorem timeFunction_negative_elapsed_on_clock_stepback :
    (timeFunction "noop" (noopWork (σ := Unit) (ε := Unit)) backwardClockWorld).2.trace =
      [Event.clockRead 1000000, Event.clockRead 0, Event.printed "noop: -1 ms\n"] ∧
    durationCastUs ((0 : Int) - 1000000) = -1000 ∧ (-1000 : Int) < 0 := by
  refine ⟨?_, by decide, by decide⟩
  decide

/-- Claim C2, amended: `timeFunction` uses `high_resolution_clock`, which
is not guaranteed monotonic; whenever the second capture is not earlier
than the first (in particular under any monotonic clock), the elapsed
duration it computes and reports is non-negative. -/
theorem timeFunction_elapsed_nonneg_of_no_stepback (σ ε : Type) (name : String)
    (g : σ → σ) (evs : List Event) (w : World σ)
    (h : w.clockFn w.clockIdx ≤ w.clockFn (w.clockIdx + 1)) :
    0 ≤ durationCastUs (w.clockFn (w.clockIdx + 1) - w.clockFn w.clockIdx) ∧
    printedOutput (timeFunction (ε := ε) name (pureWork g evs) w).2.trace =
      printedOutput w.trace ++ printedOutput evs ++
        [outputLine name (durationCastUs (w.clockFn (w.clockIdx + 1) - w.clockFn w.clockIdx))] := by
  constructor
  · exact Int.tdiv_nonneg (by omega) (by omega)
  · rw [timeFunction_pureWork]
    simp [printedOutput_append, printedOutput]

/-- Witness for the amended claim C2, at the clock advancing 1000 ns per
capture: the reported duration is non-negative and the single output line
carries it. -/
theorem timeFunction_elapsed_nonneg_witness :
    0 ≤ durationCastUs (tickWorld.clockFn (tickWorld.clockIdx + 1) -
      tickWorld.clockFn tickWorld.clockIdx) ∧
    printedOutput (timeFunction (ε := Unit) "noop" (pureWork id []) tickWorld).2.trace =
      printedOutput tickWorld.trace ++ printedOutput [] ++
        [outputLine "noop" (durationCastUs (tickWorld.clockFn (tickWorld.clockIdx + 1) -
          tickWorld.clockFn tickWorld.clockIdx))] :=
  timeFunction_elapsed_nonneg_of_no_stepback Unit Unit "noop" id [] tickWorld (by decide)

/-- Claim C3: for every label and every work that throws, `timeFunction`
does not catch the error — the caller observes exactly the thrown error —
and the harness writes no measurement line for that invocation (the output
consists of whatever the work itself printed before throwing, and nothing
else). -/
theorem timeFunction_propagates_error_without_line (σ ε : Type) (name : String)
    (e : ε) (evs : List Event) (w : World σ) :
    (timeFunction name (throwWork e evs) w).1 = Except.error e ∧
    printedOutput (timeFunction name (throwWork e evs) w).2.trace =
      printedOutput w.trace ++ printedOutput evs := by
  rw [timeFunction_throwWork]
  simp [printedOutput_append, printedOutput]

/-- Decimal digit characters are not line breaks. -/
theorem digitChar_beq_newline (d : Nat) (hd : d < 10) : (digitChar d == '\n') = false := by
  revert hd; revert d; decide

/-- Digit accumulation introduces no line break. -/
theorem natReprCharsGo_count_newline (fuel : Nat) :
    ∀ (n : Nat) (acc : List Char),
      (natReprCharsGo fuel n acc).count '\n' = acc.count '\n' := by
  induction fuel with
  | zero => intro n acc; rfl
  | succ f ih =>
    intro n acc
    by_cases h : n < 10
    · simp [natReprCharsGo, h, List.count_cons, digitChar_beq_newline n h]
    · simp [natReprCharsGo, h, ih, List.count_cons,
        digitChar_beq_newline (n % 10) (Nat.mod_lt n (by omega))]

/-- The rendered integer part contains no line break. -/
theorem natRepr_count_newline (n : Nat) : (natRepr n).data.count '\n' = 0 := by
  simp [natRepr, natReprChars, natReprCharsGo_count_newline]

/-- The zero-padded fraction contains no line break. -/
theorem padThree_count_newline (fr : Nat) : (padThree fr).count '\n' = 0 := by
  simp only [padThree]
  split_ifs <;>
    simp [List.count_cons, natReprChars, natReprCharsGo_count_newline,
      show ('0' == '\n') = false from rfl]

/-- Stripping trailing zeros does not increase any character count. -/
theorem stripZeros_count_newline_le (l : List Char) :
    (stripZeros l).count '\n' ≤ l.count '\n' := by
  simp only [stripZeros]
  rw [List.count_reverse]
  calc (l.reverse.dropWhile (fun c => c == '0')).count '\n'
      ≤ l.reverse.count '\n' := (List.dropWhile_sublist _).count_le _
    _ = l.count '\n' := List.count_reverse _ _

/-- Line-break counting distributes over string concatenation. -/
theorem newlineCount_append (s t : String) :
    newlineCount (s ++ t) = newlineCount s + newlineCount t := by
  simp [newlineCount, List.count_append]

/-- The formatted milliseconds value contains no line break. -/
theorem fmtMs_newlineCount (us : Int) : newlineCount (fmtMs us) = 0 := by
  simp only [fmtMs]
  split_ifs <;>
    · simp [newlineCount_append, newlineCount, natRepr_count_newline]
      try exact Nat.le_zero.mp ((stripZeros_count_newline_le _).trans
        (Nat.le_of_eq (padThree_count_newline _)))

/-- The chunk written by the harness holds exactly one line break — the
terminating one — whenever the label holds none. -/
theorem outputLine_newlineCount (name : String) (us : Int) (h : newlineCount name = 0) :
    newlineCount (outputLine name us) = 1 := by
  simp [outputLine, newlineCount_append, h, fmtMs_newlineCount]
  rfl

/-- Claim C4, counterexample: the label is written verbatim, so a label
containing a line break produces an output chunk with two line breaks —
two lines, neither of which contains the label nor has the form
`label: <elapsed> ms`.  With label `"a\nb"` and a noop work on the
constant-zero clock, the single invocation emits `"a\nb: 0 ms\n"`, which
holds two line breaks. -/
theorem timeFunction_multiline_label_two_lines :
    printedOutput (timeFunction "a\nb" (noopWork (σ := Unit) (ε := Unit)) zeroClockWorld).2.trace =
      ["a\nb: 0 ms\n"] ∧
    newlineCount "a\nb: 0 ms\n" = 2 := by
  constructor
  · decide
  · decide

/-- Claim C4, amended: for every label without a line break and every
non-printing work that completes normally, one invocation of the harness
appends exactly one output chunk, of the form `label ++ ": " ++ <elapsed>
++ " ms"` terminated by a line break, and that chunk holds exactly one
line break, i.e. it is exactly one line, containing the label verbatim at
its start. -/
theorem timeFunction_single_line_per_call (σ ε : Type) (name : String) (g : σ → σ)
    (w : World σ) (h : newlineCount name = 0) :
    printedOutput (timeFunction (ε := ε) name (pureWork g []) w).2.trace =
      printedOutput w.trace ++
        [outputLine name (durationCastUs (w.clockFn (w.clockIdx + 1) - w.clockFn w.clockIdx))] ∧
    newlineCount (outputLine name
      (durationCastUs (w.clockFn (w.clockIdx + 1) - w.clockFn w.clockIdx))) = 1 := by
  constructor
  · rw [timeFunction_pureWork]
    simp [printedOutput_append, printedOutput]
  · exact outputLine_newlineCount name _ h

/-- Witness for the amended claim C4 at label `"noop"` on the constant-zero
clock. -/
theorem timeFunction_single_line_witness :
    printedOutput (timeFunction (ε := Unit) "noop" (pureWork id []) zeroClockWorld).2.trace =
      printedOutput zeroClockWorld.trace ++
        [outputLine "noop" (durationCastUs (zeroClockWorld.clockFn (zeroClockWorld.clockIdx + 1) -
          zeroClockWorld.clockFn zeroClockWorld.clockIdx))] ∧
    newlineCount (outputLine "noop"
      (durationCastUs (zeroClockWorld.clockFn (zeroClockWorld.clockIdx + 1) -
        zeroClockWorld.clockFn zeroClockWorld.clockIdx))) = 1 :=
  timeFunction_single_line_per_call Unit Unit "noop" id zeroClockWorld (by decide)

/-- Claim C5, counterexample: on a run where the noop work takes less than
one microsecond (the clock reads the same timestamp twice), the truncated
duration is 0 µs, `0 / 1000.0` is `0.0`, and the default stream formatting
prints it as `0`, not zero-padded to three decimals: the output line is
`noop: 0 ms`, which matches no string of the form `noop: 0.XXX ms` with
three digit characters XXX. -/
theorem noop_output_is_not_three_decimal_format :
    printedOutput
        (timeFunction "noop" (noopWork (σ := Unit) (ε := Unit)) stalledClockWorld).2.trace =
      ["noop: 0 ms\n"] ∧
    ∀ (a b c : Char), "noop: 0 ms\n" ≠ "noop: 0." ++ String.mk [a, b, c] ++ " ms\n" := by
  constructor
  · decide
  · intro a b c h
    have hl := congrArg (fun s => s.data.length) h
    simp [String.data_append] at hl

/-- Claim C5, amended: invoking the harness with label `"noop"` and the
empty work raises no exception and writes the single output line
`noop: <v> ms`, where `v` is the elapsed duration truncated to whole
microseconds and divided by 1000, rendered in the default stream
formatting (`0` when the elapsed time is below one microsecond, no
zero-padding to three decimals); `v` is non-negative whenever the clock
does not step backward between the two captures. -/
theorem timeFunction_noop_output (ε : Type) (w : World Unit)
    (h : w.clockFn w.clockIdx ≤ w.clockFn (w.clockIdx + 1)) :
    (timeFunction "noop" (noopWork (ε := ε)) w).1 = Except.ok () ∧
    printedOutput (timeFunction "noop" (noopWork (ε := ε)) w).2.trace =
      printedOutput w.trace ++
        ["noop: " ++ fmtMs (durationCastUs (w.clockFn (w.clockIdx + 1) -
          w.clockFn w.clockIdx)) ++ " ms\n"] ∧
    0 ≤ durationCastUs (w.clockFn (w.clockIdx + 1) - w.clockFn w.clockIdx) := by
  have hn : noopWork (σ := Unit) (ε := ε) = pureWork id [] := rfl
  rw [hn, timeFunction_pureWork]
  refine ⟨rfl, ?_, Int.tdiv_nonneg (by omega) (by omega)⟩
  simp [printedOutput_append, printedOutput, outputLine]

/-- Witness for the amended claim C5 on the stalled clock, where the
elapsed time is 0 ns and the printed value renders as `0`. -/
theorem timeFunction_noop_output_witness :
    (timeFunction "noop" (noopWork (ε := Unit)) stalledClockWorld).1 = Except.ok () ∧
    printedOutput (timeFunction "noop" (noopWork (ε := Unit)) stalledClockWorld).2.trace =
      printedOutput stalledClockWorld.trace ++
        ["noop: " ++ fmtMs (durationCastUs
          (stalledClockWorld.clockFn (stalledClockWorld.clockIdx + 1) -
            stalledClockWorld.clockFn stalledClockWorld.clockIdx)) ++ " ms\n"] ∧
    0 ≤ durationCastUs (stalledClockWorld.clockFn (stalledClockWorld.clockIdx + 1) -
      stalledClockWorld.clockFn stalledClockWorld.clockIdx) :=
  timeFunction_noop_output Unit stalledClockWorld (by decide)

/-- Claim C6: in every harness invocation on a work that completes
normally, the only events between the capture of the start timestamp and
the capture of the end timestamp are exactly the events of the work
itself; the harness appends its own output (formatting and printing)
strictly after the second capture, and nothing of the harness runs between
the captures. -/
theorem timeFunction_times_only_work (σ ε : Type) (name : String) (g : σ → σ)
    (evs : List Event) (w : World σ) :
    (timeFunction (ε := ε) name (pureWork g evs) w).2.trace =
      w.trace ++ [Event.clockRead (w.clockFn w.clockIdx)] ++ evs ++
        [Event.clockRead (w.clockFn (w.clockIdx + 1)),
         Event.printed (outputLine name
           (durationCastUs (w.clockFn (w.clockIdx + 1) - w.clockFn w.clockIdx)))] := by
  rw [timeFunction_pureWork]

/-- Claim C7: the harness retains no state between calls — its entire
effect is determined by the label, the work and the world it is given.
Calling it twice in sequence with different labels succeeds, produces
exactly two output lines in call order, the first carrying the first label
and its own elapsed time (clock captures 0 and 1), the second carrying the
second label and its own elapsed time (clock captures 2 and 3), and the
caller state is the two works applied in order. -/
theorem timeFunction_two_calls_no_state_leak (σ ε : Type) (n1 n2 : String)
    (g1 g2 : σ → σ) (w : World σ) :
    (seqM (timeFunction (ε := ε) n1 (pureWork g1 []))
        (timeFunction n2 (pureWork g2 [])) w).1 = Except.ok () ∧
    printedOutput (seqM (timeFunction (ε := ε) n1 (pureWork g1 []))
        (timeFunction n2 (pureWork g2 [])) w).2.trace =
      printedOutput w.trace ++
        [outputLine n1 (durationCastUs (w.clockFn (w.clockIdx + 1) - w.clockFn w.clockIdx)),
         outputLine n2 (durationCastUs (w.clockFn (w.clockIdx + 3) - w.clockFn (w.clockIdx + 2)))] ∧
    (seqM (timeFunction (ε := ε) n1 (pureWork g1 []))
        (timeFunction n2 (pureWork g2 [])) w).2.user = g2 (g1 w.user) := by
  simp [seqM, bindM, timeFunction_pureWork, printedOutput_append, printedOutput, Nat.add_assoc]

/-- Example closures mutate nothing the caller observes: each computes a
local value (kept in the source via `volatile` or local variables) and
discards it.  The sixteen lemmas below record that each closure behaves as
the identity work with no events; the discarded computation is the `let`
binding in the respective definition. -/
theorem passByValueClosure_eq {ε : Type} : passByValueClosure (ε := ε) = pureWork id [] := rfl

theorem passByReferenceClosure_eq {ε : Type} :
    passByReferenceClosure (ε := ε) = pureWork id [] := rfl

theorem concatPlainClosure_eq {ε : Type} : concatPlainClosure (ε := ε) = pureWork id [] := rfl

theorem concatReserveClosure_eq {ε : Type} : concatReserveClosure (ε := ε) = pureWork id [] := rfl

theorem vectorPlainClosure_eq {ε : Type} : vectorPlainClosure (ε := ε) = pureWork id [] := rfl

theorem vectorReserveClosure_eq {ε : Type} : vectorReserveClosure (ε := ε) = pureWork id [] := rfl

theorem pushBackClosure_eq {ε : Type} : pushBackClosure (ε := ε) = pureWork id [] := rfl

theorem emplaceBackClosure_eq {ε : Type} : emplaceBackClosure (ε := ε) = pureWork id [] := rfl

theorem orderedLookupClosure_eq {ε : Type} : orderedLookupClosure (ε := ε) = pureWork id [] := rfl

theorem unorderedLookupClosure_eq {ε : Type} :
    unorderedLookupClosure (ε := ε) = pureWork id [] := rfl

theorem sizePerIterClosure_eq {ε : Type} : sizePerIterClosure (ε := ε) = pureWork id [] := rfl

theorem cachedSizeClosure_eq {ε : Type} : cachedSizeClosure (ε := ε) = pureWork id [] := rfl

theorem rangeForClosure_eq {ε : Type} : rangeForClosure (ε := ε) = pureWork id [] := rfl

theorem copyCtorClosure_eq {ε : Type} : copyCtorClosure (ε := ε) = pureWork id [] := rfl

theorem moveCtorClosure_eq {ε : Type} : moveCtorClosure (ε := ε) = pureWork id [] := rfl

theorem rvoClosure_eq {ε : Type} : rvoClosure (ε := ε) = pureWork id [] := rfl

/-- Claim C8: on a run where every example completes normally (which is
every run in the embedding, since no closure throws), the entry point
executes the seven example functions strictly sequentially in source order
— the printed output is the opening banner, then for each example in order
(pass-by-reference, string concatenation, vector reserve, emplace_back,
set lookup, cache size, move semantics) its numbered header, separator and
timing lines, then the closing banner — and `main` returns 0.  The clock
captures are consumed strictly in order (timing call `k` uses captures
`2k` and `2k+1`), for any clock environment. -/
theorem mainFn_sequences_examples_and_returns_zero (clockFn : Nat → Int) :
    (mainFn (ε := Unit) { clockFn := clockFn, clockIdx := 0, trace := [], user := () }).1 =
      Except.ok 0 ∧
    printedOutput
      (mainFn (ε := Unit) { clockFn := clockFn, clockIdx := 0, trace := [], user := () }).2.trace =
      [eqLine ++ "\n",
       "C++ Performance Optimization Examples\n",
       eqLine ++ "\n",
       "\n1. Pass by Value vs Reference (1M elements)\n",
       dashLine ++ "\n",
       outputLine "Pass by Value (inefficient)" (durationCastUs (clockFn 1 - clockFn 0)),
       outputLine "Pass by Reference (efficient)" (durationCastUs (clockFn 3 - clockFn 2)),
       "\n2. String Concatenation (10,000 elements)\n",
       dashLine ++ "\n",
       outputLine "Using += operator (inefficient)" (durationCastUs (clockFn 5 - clockFn 4)),
       outputLine "Using reserve + += (efficient)" (durationCastUs (clockFn 7 - clockFn 6)),
       "\n3. Vector Reserve (100,000 elements)\n",
       dashLine ++ "\n",
       outputLine "Without reserve (inefficient)" (durationCastUs (clockFn 9 - clockFn 8)),
       outputLine "With reserve (efficient)" (durationCastUs (clockFn 11 - clockFn 10)),
       "\n4. emplace_back vs push_back (100,000 elements)\n",
       dashLine ++ "\n",
       outputLine "Using push_back (inefficient)" (durationCastUs (clockFn 13 - clockFn 12)),
       outputLine "Using emplace_back (efficient)" (durationCastUs (clockFn 15 - clockFn 14)),
       "\n5. Set vs Unordered Set (100,000 lookups)\n",
       dashLine ++ "\n",
       outputLine "std::set lookup - O(log n)" (durationCastUs (clockFn 17 - clockFn 16)),
       outputLine "std::unordered_set lookup - O(1)" (durationCastUs (clockFn 19 - clockFn 18)),
       "\n6. Caching Vector Size (1M iterations)\n",
       dashLine ++ "\n",
       outputLine "Calling size() in loop (inefficient)" (durationCastUs (clockFn 21 - clockFn 20)),
       outputLine "Caching size (efficient)" (durationCastUs (clockFn 23 - clockFn 22)),
       outputLine "Range-based for loop (most efficient)" (durationCastUs (clockFn 25 - clockFn 24)),
       "\n7. Copy vs Move Semantics\n",
       dashLine ++ "\n",
       outputLine "Copy constructor (if used)" (durationCastUs (clockFn 27 - clockFn 26)),
       outputLine "Move constructor (efficient)" (durationCastUs (clockFn 29 - clockFn 28)),
       outputLine "Return value optimization" (durationCastUs (clockFn 31 - clockFn 30)),
       "\n" ++ eqLine ++ "\n",
       "Benchmark Complete!\n",
       eqLine ++ "\n"] := by
  refine ⟨?_, ?_⟩ <;>
    simp [mainFn, testPassByReference, testStringConcatenation, testVectorReserve,
      testEmplaceBack, testSetLookup, testCacheSize, testMoveSemantics,
      seqM, bindM, printOut,
      passByValueClosure_eq, passByReferenceClosure_eq, concatPlainClosure_eq,
      concatReserveClosure_eq, vectorPlainClosure_eq, vectorReserveClosure_eq,
      pushBackClosure_eq, emplaceBackClosure_eq, orderedLookupClosure_eq,
      unorderedLookupClosure_eq, sizePerIterClosure_eq, cachedSizeClosure_eq,
      rangeForClosure_eq, copyCtorClosure_eq, moveCtorClosure_eq, rvoClosure_eq,
      timeFunction_pureWork, printedOutput]

/-- The two summation loops compute the same value from the same
accumulator. -/
theorem sumGo_agree (l : List Int) : ∀ s : Int, sumByValueGo s l = sumByReferenceGo s l := by
  induction l with
  | nil => intro s; rfl
  | cons v rest ih => intro s; simp only [sumByValueGo, sumByReferenceGo]; exact ih (s + v)

/-- Claim C9: for every vector of ints, the inefficient pass-by-value
variant and the efficient pass-by-reference variant return the same sum —
copying the argument does not change the computed value. -/
theorem sumByValue_eq_sumByReference (vec : List Int) : sumByValue vec = sumByReference vec := by
  simp only [sumByValue, sumByReference]
  exact sumGo_agree vec 0

/-- Truncating cast on a non-negative count agrees with natural division. -/
theorem durationCastUs_ofNat (n : Nat) : durationCastUs (n : Int) = ((n / 1000 : Nat) : Int) := by
  simp only [durationCastUs]
  exact_mod_cast (Int.ofNat_tdiv n 1000).symm

/-- Claim C10, counterexample: truncation toward zero rounds a negative
measured duration up, so the reported value can exceed the true elapsed
time.  The clock `high_resolution_clock` may step backward (see the claim
C2 counterexample); on the run where it is adjusted from 1500 ns back to
0 ns around the noop work, the measured duration is -1500 ns, the
truncated count is -1 µs, the harness prints `noop: -0.001 ms`, and the
reported -0.001 ms is strictly greater than the true -0.0015 ms: the
harness over-reports, refuting `never exceeds`. -/
theorem reported_ms_overreports_on_stepback :
    (timeFunction "noop" (noopWork (σ := Unit) (ε := Unit)) smallStepbackWorld).2.trace =
      [Event.clockRead 1500, Event.clockRead 0, Event.printed "noop: -0.001 ms\n"] ∧
    durationCastUs ((0 : Int) - 1500) = -1 ∧
    ((0 : Int) - 1500 : ℚ) / 1000000 < ((durationCastUs ((0 : Int) - 1500) : ℚ)) / 1000 := by
  refine ⟨by decide, by decide, ?_⟩
  have h : durationCastUs ((0 : Int) - 1500) = -1 := by decide
  rw [h]
  norm_num

/-- Claim C10, amended: the value the harness reports is the measured
duration truncated to whole microseconds and divided by 1000; it is always
an exact multiple of 0.001 ms, and whenever the measured duration is
non-negative (the clock did not step backward between the captures), it
never exceeds the true elapsed time in milliseconds, under-reporting it by
strictly less than one microsecond.  When the measured duration is
negative, truncation toward zero rounds up and the reported value exceeds
the true one. -/
theorem reported_ms_truncation_of_nonneg (ns : Int) (h : 0 ≤ ns) :
    (∃ k : ℤ, ((durationCastUs ns : ℚ)) / 1000 = (k : ℚ) / 1000) ∧
    ((durationCastUs ns : ℚ)) / 1000 ≤ (ns : ℚ) / 1000000 ∧
    (ns : ℚ) / 1000000 - ((durationCastUs ns : ℚ)) / 1000 < 1 / 1000 := by
  obtain ⟨m, rfl⟩ := Int.eq_ofNat_of_zero_le h
  have hcast : ((durationCastUs (m : Int) : ℤ) : ℚ) = ((m / 1000 : ℕ) : ℚ) := by
    rw [durationCastUs_ofNat]
    exact Int.cast_natCast _
  have hm : (((m : ℤ)) : ℚ) = (m : ℚ) := Int.cast_natCast m
  rw [hcast, hm]
  have hmod : 1000 * (m / 1000) + m % 1000 = m := Nat.div_add_mod m 1000
  have hr : m % 1000 < 1000 := Nat.mod_lt m (by omega)
  have key : (m : ℚ) = 1000 * ((m / 1000 : ℕ) : ℚ) + ((m % 1000 : ℕ) : ℚ) := by
    exact_mod_cast hmod.symm
  have hq0 : (0 : ℚ) ≤ ((m % 1000 : ℕ) : ℚ) := by positivity
  have hrq : ((m % 1000 : ℕ) : ℚ) < 1000 := by exact_mod_cast hr
  refine ⟨⟨((m / 1000 : ℕ) : ℤ), by rw [Int.cast_natCast]⟩, ?_, ?_⟩
  · rw [div_le_div_iff₀ (by norm_num) (by norm_num), key]
    linarith
  · have hd : (m : ℚ) / 1000000 - ((m / 1000 : ℕ) : ℚ) / 1000 =
        ((m % 1000 : ℕ) : ℚ) / 1000000 := by
      rw [key]
      ring
    rw [hd, div_lt_div_iff₀ (by norm_num) (by norm_num)]
    linarith

/-- Witness for the amended claim C10 at a measured duration of 12345 ns:
the reported value 12 µs / 1000 is a multiple of 0.001 ms, is at most
0.012345 ms, and falls short of it by less than 0.001 ms. -/
theorem reported_ms_truncation_witness :
    (∃ k : ℤ, ((durationCastUs (12345 : Int) : ℚ)) / 1000 = (k : ℚ) / 1000) ∧
    ((durationCastUs (12345 : Int) : ℚ)) / 1000 ≤ ((12345 : Int) : ℚ) / 1000000 ∧
    ((12345 : Int) : ℚ) / 1000000 - ((durationCastUs (12345 : Int) : ℚ)) / 1000 < 1 / 1000 :=
  reported_ms_truncation_of_nonneg 12345 (by decide)
